import Mathlib

/-
  Verification development for the hako Go host of a WASM-embedded QuickJS
  engine.  The Go sources are shallowly embedded: every call into the engine
  (a WASM export reached through the Registry) is recorded as an `EngineCall`
  event, and the engine's responses are supplied by an `Engine` oracle of
  pure functions.  Host-side state (the Runtime, the Realms, the
  CallbackManager's registration maps) is passed explicitly.  Go's int32
  handle types (RuntimePtr, ContextPtr, ValuePtr, MemoryPtr, ...) are
  modelled as Nat with 0 the null sentinel, matching `IsNull` in the source.
-/

namespace Hako

/-- One invocation of an engine entry point (a Registry call in the Go
source).  Events record the arguments and, where a later host action depends
on it, the engine's returned value. -/
inductive EngineCall where
  | malloc (ctx size ptr : Nat)
  | freeMem (ctx ptr : Nat)
  | eval (ctx codePtr codeLen filenamePtr detectModule flags : Nat)
  | getLastError (ctx resultPtr errPtr : Nat)
  | toCString (ctx valPtr strPtr : Nat)
  | freeCString (ctx ptr : Nat)
  | freeValuePointer (ctx ptr : Nat)
  | dupValuePointer (ctx ptr : Nat)
  | getUndefined
  | getNull
  | newContext (rt ptr : Nat)
  | freeContext (ctx : Nat)
  | freeRuntime (rt : Nat)
  | setMemoryLimit (rt : Nat) (bytes : Int)
  | runGC (rt : Nat)
  | isJobPending (rt : Nat)
  | executePendingJob (rt : Nat) (maxJobs : Int)
deriving DecidableEq, Repr

/-- The engine oracle: pure response functions for the entry points whose
results the host inspects.  The Go Registry wraps the corresponding WASM
exports; their behaviour is outside the repository, so it is a parameter. -/
structure Engine where
  malloc : Nat → Nat → Nat
  eval : Nat → Nat → Nat → Nat → Nat → Nat → Nat
  getLastError : Nat → Nat → Nat
  toCString : Nat → Nat → Nat
  readCStr : Nat → List Nat
  dup : Nat → Nat → Nat
  undefinedPtr : Nat
  nullPtr : Nat
  newContext : Nat → Nat
  isJobPending : Nat → Nat
  executePendingJob : Nat → Int → Int

/-- Realm (from part_002): a JavaScript execution context.  The Go struct
also carries a back-reference to its Runtime; here the runtime's engine
oracle and bookkeeping are passed explicitly to each operation. -/
structure Realm where
  Pointer : Nat
  disposed : Bool
deriving DecidableEq, Repr

/-- Value (from part_002): wraps a ValuePtr together with its owning realm
(`none` models a nil Go realm pointer, i.e. the zero Value) and the
borrowed flag.  Go's zero value `Value{}` is `⟨none, 0, false⟩`. -/
structure Value where
  realm : Option Realm
  ptr : Nat
  borrowed : Bool
deriving DecidableEq, Repr

/-- Go's zero value `Value{}`. -/
def Value.zero : Value := { realm := none, ptr := 0, borrowed := false }

namespace MemoryManager

/-- MemoryManager.AllocateMemory: routes through the engine allocator
(registry.Malloc). -/
def AllocateMemory (e : Engine) (ctxPtr size : Nat) : Nat × List EngineCall :=
  (e.malloc ctxPtr size, [.malloc ctxPtr size (e.malloc ctxPtr size)])

/-- MemoryManager.FreeMemory: frees via registry.Free, guarding the null
pointer. -/
def FreeMemory (ctxPtr ptr : Nat) : List EngineCall :=
  if ptr ≠ 0 then [.freeMem ctxPtr ptr] else []

/-- MemoryManager.AllocateString: allocates length+1 bytes and writes the
bytes plus terminator (the write is a linear-memory store, not an engine
entry point, so it contributes no event); returns pointer and length. -/
def AllocateString (e : Engine) (ctxPtr : Nat) (s : List Nat) :
    (Nat × Nat) × List EngineCall :=
  let size := s.length + 1
  let r := AllocateMemory e ctxPtr size
  if r.1 = 0 then ((0, 0), r.2) else ((r.1, s.length), r.2)

/-- MemoryManager.FreeCString: frees a C string owned by the engine,
guarding the null pointer. -/
def FreeCString (ctxPtr ptr : Nat) : List EngineCall :=
  if ptr ≠ 0 then [.freeCString ctxPtr ptr] else []

/-- MemoryManager.FreeValuePointer: frees a JSValue handle, guarding the
null pointer. -/
def FreeValuePointer (ctxPtr ptr : Nat) : List EngineCall :=
  if ptr ≠ 0 then [.freeValuePointer ctxPtr ptr] else []

/-- MemoryManager.DupValuePointer: duplicates a JSValue handle through the
engine (registry.DupValuePointer), unconditionally. -/
def DupValuePointer (e : Engine) (ctxPtr ptr : Nat) : Nat × List EngineCall :=
  (e.dup ctxPtr ptr, [.dupValuePointer ctxPtr ptr])

/-- MemoryManager.ReadNullTerminatedString: a linear-memory read (no engine
event); the bytes found at the pointer are supplied by the oracle. -/
def ReadNullTerminatedString (e : Engine) (ptr : Nat) : List Nat :=
  if ptr = 0 then [] else e.readCStr ptr

end MemoryManager

/-- Value.Free (part_002): a no-op when the realm is nil, the handle is
null, or the value is borrowed; otherwise it calls
MemoryManager.FreeValuePointer.  Note the Go receiver is a value receiver
and the handle is never cleared, so the function is pure: it returns only
the engine calls it makes. -/
def Value.Free (v : Value) : List EngineCall :=
  match v.realm with
  | none => []
  | some r =>
      if v.ptr = 0 ∨ v.borrowed then []
      else MemoryManager.FreeValuePointer r.Pointer v.ptr

/-- The engine calls made by `n` successive invocations of `v.Free()`.
Because Go's `Free` takes a value receiver and mutates nothing, every
invocation sees the same `v`. -/
def Value.freeTraceN (v : Value) (n : Nat) : List EngineCall :=
  (List.replicate n v.Free).flatten

/-- Number of engine value-release invocations (registry.FreeValuePointer)
in a trace. -/
def countReleases (tr : List EngineCall) : Nat :=
  (tr.filter fun ev => match ev with
    | .freeValuePointer _ _ => true
    | _ => false).length

/-- Value.Dup (part_002): the zero value ducks out without touching the
engine; otherwise the handle is duplicated through the engine and wrapped
with `borrowed` left at its zero value (false). -/
def Value.Dup (e : Engine) (v : Value) : Value × List EngineCall :=
  match v.realm with
  | none => (Value.zero, [])
  | some r =>
      let d := MemoryManager.DupValuePointer e r.Pointer v.ptr
      ({ realm := some r, ptr := d.1, borrowed := false }, d.2)

/-- Value.String (part_002): converts through registry.ToCString, reads the
bytes, frees the C string; nil realm or null C string yield "". -/
def Value.String (e : Engine) (v : Value) : List Nat × List EngineCall :=
  match v.realm with
  | none => ([], [])
  | some r =>
      let strPtr := e.toCString r.Pointer v.ptr
      if strPtr = 0 then ([], [.toCString r.Pointer v.ptr strPtr])
      else
        (MemoryManager.ReadNullTerminatedString e strPtr,
         [.toCString r.Pointer v.ptr strPtr]
           ++ MemoryManager.FreeCString r.Pointer strPtr)

/-- Realm.Undefined (part_002): fetches the undefined singleton through
registry.GetUndefined and marks the wrapper borrowed. -/
def Realm.Undefined (e : Engine) (r : Realm) : Value × List EngineCall :=
  ({ realm := some r, ptr := e.undefinedPtr, borrowed := true }, [.getUndefined])

/-- Realm.Null (part_002): fetches the null singleton through
registry.GetNull and marks the wrapper borrowed. -/
def Realm.Null (e : Engine) (r : Realm) : Value × List EngineCall :=
  ({ realm := some r, ptr := e.nullPtr, borrowed := true }, [.getNull])

/-- The distinct error exits of Realm.EvalCodeWithOptions (each a distinct
fmt.Errorf in the source); `exception` carries the exception's string form. -/
inductive EvalError where
  | disposed
  | allocCodeFailed
  | allocFilenameFailed
  | exception (msg : List Nat)
deriving DecidableEq, Repr

/-- The bytes of the default filename "eval". -/
def evalFilename : List Nat := [101, 118, 97, 108]

/-- Realm.EvalCodeWithOptions (part_002), with the option defaulting folded
in: an empty filename stands for a nil/empty EvalOptions.Filename and is
replaced by "eval".  Returns the (Value, error) pair as an Except plus the
engine-call trace; the Go defers free the filename string then the code
string at every exit past their allocations. -/
def Realm.EvalCodeWithOptions (e : Engine) (r : Realm) (code filename : List Nat)
    (detectModule : Bool) : Except EvalError Value × List EngineCall :=
  if r.disposed then (.error .disposed, [])
  else if code = [] then
    let u := Realm.Undefined e r
    (.ok u.1, u.2)
  else
    let fname := if filename = [] then evalFilename else filename
    let ac := MemoryManager.AllocateString e r.Pointer code
    let codePtr := ac.1.1
    let codeLen := ac.1.2
    if codePtr = 0 then (.error .allocCodeFailed, ac.2)
    else
      let af := MemoryManager.AllocateString e r.Pointer fname
      let filenamePtr := af.1.1
      if filenamePtr = 0 then
        (.error .allocFilenameFailed,
         ac.2 ++ af.2 ++ MemoryManager.FreeMemory r.Pointer codePtr)
      else
        let detect := if detectModule then 1 else 0
        let resultPtr := e.eval r.Pointer codePtr codeLen filenamePtr detect 0
        let errPtr := e.getLastError r.Pointer resultPtr
        let trCall : List EngineCall :=
          [.eval r.Pointer codePtr codeLen filenamePtr detect 0,
           .getLastError r.Pointer resultPtr errPtr]
        if errPtr ≠ 0 then
          let errVal : Value := { realm := some r, ptr := errPtr, borrowed := false }
          let s := Value.String e errVal
          (.error (.exception s.1),
           ac.2 ++ af.2 ++ trCall
             ++ MemoryManager.FreeValuePointer r.Pointer resultPtr
             ++ s.2 ++ errVal.Free
             ++ MemoryManager.FreeMemory r.Pointer filenamePtr
             ++ MemoryManager.FreeMemory r.Pointer codePtr)
        else
          (.ok { realm := some r, ptr := resultPtr, borrowed := false },
           ac.2 ++ af.2 ++ trCall
             ++ MemoryManager.FreeMemory r.Pointer filenamePtr
             ++ MemoryManager.FreeMemory r.Pointer codePtr)

/-- Every engine-memory allocation that succeeded (nonzero pointer) in the
trace is matched by a free of the same pointer on the same context: no
string allocation leaks. -/
def memBalanced (tr : List EngineCall) : Prop :=
  ∀ c n p, EngineCall.malloc c n p ∈ tr → p ≠ 0 → EngineCall.freeMem c p ∈ tr

/-- Whether an event is a call to the evaluation entry point. -/
def isEvalCall : EngineCall → Bool
  | .eval _ _ _ _ _ _ => true
  | _ => false

/-- Whether an event is a call to the engine allocator. -/
def isMallocCall : EngineCall → Bool
  | .malloc _ _ _ => true
  | _ => false

/-- The CallbackManager's registration state (part_000).  The Go maps hold
host pointers to the owning Realm/Runtime as values; inbound dispatch only
needs to know whether a handle resolves, so the model tracks the key sets. -/
structure CallbackManagerS where
  contexts : List Nat
  runtimes : List Nat
deriving DecidableEq, Repr

namespace CallbackManagerS

/-- CallbackManager.RegisterContext: map insert (key set). -/
def RegisterContext (cm : CallbackManagerS) (p : Nat) : CallbackManagerS :=
  { cm with contexts := p :: cm.contexts.filter (· ≠ p) }

/-- CallbackManager.UnregisterContext: map delete. -/
def UnregisterContext (cm : CallbackManagerS) (p : Nat) : CallbackManagerS :=
  { cm with contexts := cm.contexts.filter (· ≠ p) }

/-- CallbackManager.RegisterRuntime: map insert (key set). -/
def RegisterRuntime (cm : CallbackManagerS) (p : Nat) : CallbackManagerS :=
  { cm with runtimes := p :: cm.runtimes.filter (· ≠ p) }

/-- CallbackManager.UnregisterRuntime: map delete. -/
def UnregisterRuntime (cm : CallbackManagerS) (p : Nat) : CallbackManagerS :=
  { cm with runtimes := cm.runtimes.filter (· ≠ p) }

/-- handleCallFunction (part_000): stub returning the null value handle. -/
def handleCallFunction (_cm : CallbackManagerS)
    (_ctx _funcID _thisArg _argc _argv : Nat) : Nat := 0

/-- handleInterrupt (part_000): stub returning false. -/
def handleInterrupt (_cm : CallbackManagerS) (_rt _opq : Nat) : Bool := false

/-- handleLoadModule (part_000): stub returning (ModuleSourceError, 0, 0). -/
def handleLoadModule (_cm : CallbackManagerS) (_rt _ctx : Nat)
    (_moduleName : List Nat) (_opq : Nat) : Nat × Nat × Nat := (2, 0, 0)

/-- handleNormalizeModule (part_000): stub returning `name` unchanged. -/
def handleNormalizeModule (_cm : CallbackManagerS) (_ctx : Nat)
    (_baseName name : List Nat) (_opq : Nat) : List Nat := name

/-- handleModuleInit (part_000): stub returning status 0. -/
def handleModuleInit (_cm : CallbackManagerS) (_ctx _m : Nat) : Nat := 0

end CallbackManagerS

/-- ModuleSourceType constants (part_000). -/
def ModuleSourceString : Nat := 0

/-- ModuleSourceType constant for precompiled bytecode sources. -/
def ModuleSourcePrecompiled : Nat := 1

/-- ModuleSourceType constant for a failed module load. -/
def ModuleSourceError : Nat := 2

/-- The Runtime's host-side state (runtime.go): the QuickJS runtime handle,
the disposed flag, and the tracked realm handles (the keys of rt.realms;
CreateRealm only ever inserts nonzero handles). -/
structure RuntimeS where
  Pointer : Nat
  disposed : Bool
  realms : List Nat
deriving DecidableEq, Repr

/-- The errors a Runtime operation can surface. -/
inductive RtError where
  | runtimeDisposed
  | createContextFailed
deriving DecidableEq, Repr

namespace RuntimeS

/-- Runtime.CreateRealm (runtime.go): rejects when disposed, otherwise
requests a context handle, tracks the realm and registers it with the
callback router. -/
def CreateRealm (e : Engine) (rt : RuntimeS) (cm : CallbackManagerS) :
    Except RtError (Realm × RuntimeS × CallbackManagerS) × List EngineCall :=
  if rt.disposed then (.error .runtimeDisposed, [])
  else
    let ctxPtr := e.newContext rt.Pointer
    if ctxPtr = 0 then (.error .createContextFailed, [.newContext rt.Pointer ctxPtr])
    else
      (.ok ({ Pointer := ctxPtr, disposed := false },
            { rt with realms := ctxPtr :: rt.realms.filter (· ≠ ctxPtr) },
            cm.RegisterContext ctxPtr),
       [.newContext rt.Pointer ctxPtr])

/-- Runtime.SetMemoryLimit (runtime.go): forwards to the engine with no
disposed check. -/
def SetMemoryLimit (rt : RuntimeS) (bytes : Int) : List EngineCall :=
  [.setMemoryLimit rt.Pointer bytes]

/-- Runtime.RunGC (runtime.go): forwards to the engine with no disposed
check. -/
def RunGC (rt : RuntimeS) : List EngineCall :=
  [.runGC rt.Pointer]

/-- Runtime.IsMicrotaskPending (runtime.go): forwards to the engine with no
disposed check. -/
def IsMicrotaskPending (e : Engine) (rt : RuntimeS) : Bool × List EngineCall :=
  (e.isJobPending rt.Pointer ≠ 0, [.isJobPending rt.Pointer])

/-- Runtime.ExecuteMicrotasks (runtime.go): forwards to the engine with no
disposed check. -/
def ExecuteMicrotasks (e : Engine) (rt : RuntimeS) (maxJobs : Int) :
    Int × List EngineCall :=
  (e.executePendingJob rt.Pointer maxJobs, [.executePendingJob rt.Pointer maxJobs])

/-- Runtime.dropRealm (runtime.go): removes the realm's current Pointer
from the tracking map (Realm.Close calls this after dispose has zeroed the
pointer). -/
def dropRealm (rt : RuntimeS) (p : Nat) : RuntimeS :=
  { rt with realms := rt.realms.filter (· ≠ p) }

/-- Runtime.Close (runtime.go): idempotent; disposes every tracked realm
(realm.dispose — freeing each context handle but NOT unregistering it from
the callback router), clears the tracking map, then unregisters and frees
the runtime handle.  The wazero shutdown is outside the engine-call model. -/
def Close (rt : RuntimeS) (cm : CallbackManagerS) :
    RuntimeS × CallbackManagerS × List EngineCall :=
  if rt.disposed then (rt, cm, [])
  else
    let tr := rt.realms.map (EngineCall.freeContext ·)
    let rt1 : RuntimeS := { rt with disposed := true, realms := [] }
    if rt.Pointer ≠ 0 then
      ({ rt1 with Pointer := 0 },
       cm.UnregisterRuntime rt.Pointer,
       tr ++ [.freeRuntime rt.Pointer])
    else (rt1, cm, tr)

end RuntimeS

/-- Realm.dispose (part_002): idempotent; frees the context handle when
nonzero and zeroes it. -/
def Realm.dispose (r : Realm) : Realm × List EngineCall :=
  if r.disposed then (r, [])
  else
    if r.Pointer ≠ 0 then
      ({ r with disposed := true, Pointer := 0 }, [.freeContext r.Pointer])
    else ({ r with disposed := true }, [])

/-- Realm.Close (part_002): unregisters the (pre-dispose) context handle
from the router, disposes, then drops the realm from the runtime's tracking
map keyed by the POST-dispose pointer, exactly as the source does. -/
def Realm.CloseOp (r : Realm) (rt : RuntimeS) (cm : CallbackManagerS) :
    Realm × RuntimeS × CallbackManagerS × List EngineCall :=
  if r.disposed then (r, rt, cm, [])
  else
    let cm1 := cm.UnregisterContext r.Pointer
    let d := r.dispose
    (d.1, rt.dropRealm d.1.Pointer, cm1, d.2)

namespace Memory

/-- wazero api.Memory.Read: `n` bytes at `off`, failing when the range
leaves the buffer.  The buffer is a byte list (each entry < 256 in real
memories; the accessor never depends on that). -/
def read (mem : List Nat) (off n : Nat) : Option (List Nat) :=
  if off + n ≤ mem.length then some ((mem.drop off).take n) else none

/-- wazero api.Memory.Write via Memory.WriteBytes: copies `data` at `off`,
failing (and leaving memory unchanged) when the range leaves the buffer. -/
def writeBytes (mem : List Nat) (off : Nat) (data : List Nat) :
    List Nat × Bool :=
  if off + data.length ≤ mem.length then
    (mem.take off ++ data ++ mem.drop (off + data.length), true)
  else (mem, false)

/-- Memory.WriteUint32 (part_001): little-endian 32-bit store. -/
def WriteUint32 (mem : List Nat) (off v : Nat) : List Nat × Bool :=
  writeBytes mem off [v % 256, v / 256 % 256, v / 65536 % 256, v / 16777216 % 256]

/-- Memory.ReadUint32 (part_001): little-endian 32-bit load. -/
def ReadUint32 (mem : List Nat) (off : Nat) : Nat × Bool :=
  match read mem off 4 with
  | none => (0, false)
  | some d =>
      (d.getD 0 0 + 256 * d.getD 1 0 + 65536 * d.getD 2 0 + 16777216 * d.getD 3 0,
       true)

/-- Memory.ReadString (part_001): reads the whole suffix of the buffer from
`off` (Size()-off bytes; for off beyond the buffer the uint32 count wraps
and the underlying Read fails), then scans for the first zero byte.  When a
zero byte is found the bytes before it are returned; when none is found THE
WHOLE SUFFIX is returned, in both cases with ok = true. -/
def ReadString (mem : List Nat) (off : Nat) : List Nat × Bool :=
  match read mem off (mem.length - off) with
  | none => ([], false)
  | some data =>
      match data.findIdx? (· = 0) with
      | some i => (data.take i, true)
      | none => (data, true)

end Memory

/-- The load_module WASM binding (part_000, AddToHostModule): reads the
module name, asks handleLoadModule, and writes the result struct as three
consecutive 32-bit little-endian fields {sourceType, payloadOffset,
payloadLength} at the caller-given output offset, returning sourceType. -/
def CallbackManagerS.loadModuleBinding (cm : CallbackManagerS) (mem : List Nat)
    (rt jsCtx moduleNamePtr opq outPtr : Nat) : Nat × List Nat :=
  let moduleName := (Memory.ReadString mem moduleNamePtr).1
  let res := cm.handleLoadModule rt jsCtx moduleName opq
  let m1 := (Memory.WriteUint32 mem outPtr res.1).1
  let m2 := (Memory.WriteUint32 m1 (outPtr + 4) res.2.1).1
  let m3 := (Memory.WriteUint32 m2 (outPtr + 8) res.2.2).1
  (res.1, m3)

/-- A concrete engine oracle used to instantiate hypotheses on concrete
inputs. -/
def testEngine : Engine where
  malloc := fun _ n => 100 + n
  eval := fun _ _ _ _ _ _ => 7
  getLastError := fun _ _ => 9
  toCString := fun _ _ => 77
  readCStr := fun _ => [69, 114, 114]
  dup := fun _ p => p
  undefinedPtr := 3
  nullPtr := 4
  newContext := fun _ => 7
  isJobPending := fun _ => 0
  executePendingJob := fun _ _ => 0

/-- The code-string pointer EvalCodeWithOptions obtains from the engine
allocator (the source's `codePtr`). -/
def evalCodePtr (e : Engine) (r : Realm) (code : List Nat) : Nat :=
  e.malloc r.Pointer (code.length + 1)

/-- The filename-string pointer EvalCodeWithOptions obtains from the engine
allocator after option defaulting (the source's `filenamePtr`). -/
def evalFnamePtr (e : Engine) (r : Realm) (filename : List Nat) : Nat :=
  e.malloc r.Pointer
    ((if filename = [] then evalFilename else filename).length + 1)

/-- The evaluation result handle (the source's `resultPtr`). -/
def evalResultPtr (e : Engine) (r : Realm) (code filename : List Nat)
    (detect : Bool) : Nat :=
  e.eval r.Pointer (evalCodePtr e r code) code.length (evalFnamePtr e r filename)
    (if detect then 1 else 0) 0

/-- The pending-exception handle (the source's `errPtr`). -/
def evalErrPtr (e : Engine) (r : Realm) (code filename : List Nat)
    (detect : Bool) : Nat :=
  e.getLastError r.Pointer (evalResultPtr e r code filename detect)

/-- The C-string pointer for the exception's string representation (the
`strPtr` inside Value.String on the exception value). -/
def evalExcStrPtr (e : Engine) (r : Realm) (code filename : List Nat)
    (detect : Bool) : Nat :=
  e.toCString r.Pointer (evalErrPtr e r code filename detect)

/-- The exception's string form as surfaced by Value.String. -/
def evalExcMsg (e : Engine) (r : Realm) (code filename : List Nat)
    (detect : Bool) : List Nat :=
  if evalExcStrPtr e r code filename detect = 0 then []
  else e.readCStr (evalExcStrPtr e r code filename detect)

/-- Flattening `n` copies of the empty trace yields the empty trace. -/
lemma flatten_replicate_nil (n : Nat) :
    (List.replicate n ([] : List EngineCall)).flatten = [] := by
  induction n with
  | zero => rfl
  | succ k ih => simp [List.replicate_succ, ih]

/-- Normal form of Value.String on an owned value: one ToCString call, then
(when the C string is non-null) the bytes at the pointer and a FreeCString
call. -/
lemma value_string_eq (e : Engine) (r : Realm) (p : Nat) :
    Value.String e { realm := some r, ptr := p, borrowed := false }
      = (if e.toCString r.Pointer p = 0 then []
         else e.readCStr (e.toCString r.Pointer p),
         [.toCString r.Pointer p (e.toCString r.Pointer p)]
           ++ if e.toCString r.Pointer p = 0 then []
              else [.freeCString r.Pointer (e.toCString r.Pointer p)]) := by
  by_cases h0 : e.toCString r.Pointer p = 0
  · simp [Value.String, h0]
  · simp [Value.String, h0, MemoryManager.ReadNullTerminatedString,
      MemoryManager.FreeCString]

/-- Trace and result of EvalCodeWithOptions on a disposed realm. -/
lemma evalCode_disposed_eq (e : Engine) (r : Realm) (code filename : List Nat)
    (detect : Bool) (hd : r.disposed = true) :
    Realm.EvalCodeWithOptions e r code filename detect
      = (.error .disposed, []) := by
  simp [Realm.EvalCodeWithOptions, hd]

/-- Trace and result of EvalCodeWithOptions on empty source. -/
lemma evalCode_empty_eq (e : Engine) (r : Realm) (filename : List Nat)
    (detect : Bool) (hd : r.disposed = false) :
    Realm.EvalCodeWithOptions e r [] filename detect
      = (.ok { realm := some r, ptr := e.undefinedPtr, borrowed := true },
         [.getUndefined]) := by
  simp [Realm.EvalCodeWithOptions, hd, Realm.Undefined]

/-- Trace and result of EvalCodeWithOptions when the code-string allocation
fails. -/
lemma evalCode_allocCodeFail_eq (e : Engine) (r : Realm)
    (code filename : List Nat) (detect : Bool) (hd : r.disposed = false)
    (hc : code ≠ []) (hca : evalCodePtr e r code = 0) :
    Realm.EvalCodeWithOptions e r code filename detect
      = (.error .allocCodeFailed, [.malloc r.Pointer (code.length + 1) 0]) := by
  have hca' : e.malloc r.Pointer (code.length + 1) = 0 := hca
  simp [Realm.EvalCodeWithOptions, MemoryManager.AllocateString,
    MemoryManager.AllocateMemory, hd, hc, hca']

/-- Trace and result of EvalCodeWithOptions when the filename-string
allocation fails: the code string is still freed by the deferred release. -/
lemma evalCode_allocFnameFail_eq (e : Engine) (r : Realm)
    (code filename : List Nat) (detect : Bool) (hd : r.disposed = false)
    (hc : code ≠ []) (hca : evalCodePtr e r code ≠ 0)
    (hfa : evalFnamePtr e r filename = 0) :
    Realm.EvalCodeWithOptions e r code filename detect
      = (.error .allocFilenameFailed,
         [.malloc r.Pointer (code.length + 1) (evalCodePtr e r code),
          .malloc r.Pointer
            ((if filename = [] then evalFilename else filename).length + 1) 0,
          .freeMem r.Pointer (evalCodePtr e r code)]) := by
  have hca' : ¬ e.malloc r.Pointer (code.length + 1) = 0 := hca
  have hfa' : e.malloc r.Pointer
      ((if filename = [] then evalFilename else filename).length + 1) = 0 :=
    hfa
  simp [Realm.EvalCodeWithOptions, MemoryManager.AllocateString,
    MemoryManager.AllocateMemory, MemoryManager.FreeMemory, hd, hc, hca', hfa',
    evalCodePtr]

/-- Trace and result of EvalCodeWithOptions on the pending-exception path:
both deferred string frees run, the result handle and the exception value
are released, the exception's C string is read and freed, and the surfaced
error carries the exception's string form. -/
lemma evalCode_exception_eq (e : Engine) (r : Realm) (code filename : List Nat)
    (detect : Bool) (hd : r.disposed = false) (hc : code ≠ [])
    (hca : evalCodePtr e r code ≠ 0) (hfa : evalFnamePtr e r filename ≠ 0)
    (herr : evalErrPtr e r code filename detect ≠ 0) :
    Realm.EvalCodeWithOptions e r code filename detect
      = (.error (.exception (evalExcMsg e r code filename detect)),
         [.malloc r.Pointer (code.length + 1) (evalCodePtr e r code),
          .malloc r.Pointer
            ((if filename = [] then evalFilename else filename).length + 1)
            (evalFnamePtr e r filename),
          .eval r.Pointer (evalCodePtr e r code) code.length
            (evalFnamePtr e r filename) (if detect then 1 else 0) 0,
          .getLastError r.Pointer (evalResultPtr e r code filename detect)
            (evalErrPtr e r code filename detect)]
         ++ (if evalResultPtr e r code filename detect = 0 then []
             else [.freeValuePointer r.Pointer
                    (evalResultPtr e r code filename detect)])
         ++ ([.toCString r.Pointer (evalErrPtr e r code filename detect)
               (evalExcStrPtr e r code filename detect)]
             ++ (if evalExcStrPtr e r code filename detect = 0 then []
                 else [.freeCString r.Pointer
                        (evalExcStrPtr e r code filename detect)]))
         ++ [.freeValuePointer r.Pointer (evalErrPtr e r code filename detect)]
         ++ [.freeMem r.Pointer (evalFnamePtr e r filename)]
         ++ [.freeMem r.Pointer (evalCodePtr e r code)]) := by
  have hca' : ¬ e.malloc r.Pointer (code.length + 1) = 0 := hca
  have hfa' : ¬ e.malloc r.Pointer
      ((if filename = [] then evalFilename else filename).length + 1) = 0 :=
    hfa
  have herr' : ¬ e.getLastError r.Pointer
      (e.eval r.Pointer (e.malloc r.Pointer (code.length + 1)) code.length
        (e.malloc r.Pointer
          ((if filename = [] then evalFilename else filename).length + 1))
        (if detect then 1 else 0) 0) = 0 := by
    simpa [evalErrPtr, evalResultPtr, evalCodePtr, evalFnamePtr] using herr
  simp [Realm.EvalCodeWithOptions, MemoryManager.AllocateString,
    MemoryManager.AllocateMemory, MemoryManager.FreeMemory,
    MemoryManager.FreeValuePointer, Value.Free, value_string_eq,
    hd, hc, hca', hfa', herr', evalCodePtr, evalFnamePtr, evalResultPtr,
    evalErrPtr, evalExcStrPtr, evalExcMsg]

/-- Trace and result of EvalCodeWithOptions on the success path: both
deferred string frees run and the result handle is returned owned. -/
lemma evalCode_success_eq (e : Engine) (r : Realm) (code filename : List Nat)
    (detect : Bool) (hd : r.disposed = false) (hc : code ≠ [])
    (hca : evalCodePtr e r code ≠ 0) (hfa : evalFnamePtr e r filename ≠ 0)
    (herr : evalErrPtr e r code filename detect = 0) :
    Realm.EvalCodeWithOptions e r code filename detect
      = (.ok { realm := some r, ptr := evalResultPtr e r code filename detect,
               borrowed := false },
         [.malloc r.Pointer (code.length + 1) (evalCodePtr e r code),
          .malloc r.Pointer
            ((if filename = [] then evalFilename else filename).length + 1)
            (evalFnamePtr e r filename),
          .eval r.Pointer (evalCodePtr e r code) code.length
            (evalFnamePtr e r filename) (if detect then 1 else 0) 0,
          .getLastError r.Pointer (evalResultPtr e r code filename detect)
            (evalErrPtr e r code filename detect),
          .freeMem r.Pointer (evalFnamePtr e r filename),
          .freeMem r.Pointer (evalCodePtr e r code)]) := by
  have hca' : ¬ e.malloc r.Pointer (code.length + 1) = 0 := hca
  have hfa' : ¬ e.malloc r.Pointer
      ((if filename = [] then evalFilename else filename).length + 1) = 0 :=
    hfa
  have herr' : e.getLastError r.Pointer
      (e.eval r.Pointer (e.malloc r.Pointer (code.length + 1)) code.length
        (e.malloc r.Pointer
          ((if filename = [] then evalFilename else filename).length + 1))
        (if detect then 1 else 0) 0) = 0 := by
    simpa [evalErrPtr, evalResultPtr, evalCodePtr, evalFnamePtr] using herr
  simp [Realm.EvalCodeWithOptions, MemoryManager.AllocateString,
    MemoryManager.AllocateMemory, MemoryManager.FreeMemory, hd, hc, hca', hfa',
    herr', evalCodePtr, evalFnamePtr, evalResultPtr, evalErrPtr]

/-- On every exit path of EvalCodeWithOptions, every successful engine
memory allocation is matched by a free of the same pointer: the scoped
acquisition/release of the code and filename strings never leaks. -/
lemma evalCode_memBalanced (e : Engine) (r : Realm) (code filename : List Nat)
    (detect : Bool) :
    memBalanced (Realm.EvalCodeWithOptions e r code filename detect).2 := by
  intro c n p hmem hp
  by_cases hd : r.disposed = true
  · rw [evalCode_disposed_eq e r code filename detect hd] at hmem
    simp at hmem
  · have hd' : r.disposed = false := by
      cases hdd : r.disposed
      · rfl
      · exact absurd hdd hd
    by_cases hc : code = []
    · subst hc
      rw [evalCode_empty_eq e r filename detect hd'] at hmem
      simp at hmem
    · by_cases hca : evalCodePtr e r code = 0
      · rw [evalCode_allocCodeFail_eq e r code filename detect hd' hc hca] at hmem
        simp at hmem
        exact absurd hmem.2.2 hp
      · by_cases hfa : evalFnamePtr e r filename = 0
        · rw [evalCode_allocFnameFail_eq e r code filename detect hd' hc hca hfa]
            at hmem ⊢
          simp at hmem ⊢
          rcases hmem with ⟨hcc, _, hpp⟩ | ⟨_, _, hpp⟩
          · subst hcc; subst hpp; simp
          · exact absurd hpp hp
        · by_cases herr : evalErrPtr e r code filename detect = 0
          · rw [evalCode_success_eq e r code filename detect hd' hc hca hfa herr]
              at hmem ⊢
            simp at hmem ⊢
            rcases hmem with ⟨hcc, _, hpp⟩ | ⟨hcc, _, hpp⟩
            · subst hcc; subst hpp; simp
            · subst hcc; subst hpp; simp
          · rw [evalCode_exception_eq e r code filename detect hd' hc hca hfa herr]
              at hmem ⊢
            by_cases hres : evalResultPtr e r code filename detect = 0 <;>
              by_cases hstr : evalExcStrPtr e r code filename detect = 0 <;>
              [skip; skip; skip; skip] <;>
              simp [hres, hstr] at hmem ⊢ <;>
              (rcases hmem with ⟨hcc, _, hpp⟩ | ⟨hcc, _, hpp⟩ <;>
                subst hcc <;> subst hpp <;> simp)

/-- Release counting distributes over trace concatenation. -/
lemma countReleases_append (a b : List EngineCall) :
    countReleases (a ++ b) = countReleases a + countReleases b := by
  simp [countReleases, List.filter_append]

/-- A list none of whose elements is zero has no index of a zero element. -/
lemma findIdx?_zero_eq_none (l : List Nat) (h : ∀ b ∈ l, b ≠ 0) :
    l.findIdx? (· = 0) = none := by
  induction l with
  | nil => rfl
  | cons a t ih =>
      have ha : a ≠ 0 := h a (by simp)
      have ht : t.findIdx? (· = 0) = none := ih fun b hb => h b (by simp [hb])
      simp [List.findIdx?_cons, ha, ht]

/-- Claim C1 (counterexample): a Value with an owning context, handle 42
and borrowed = false, freed twice, invokes the engine release entry point
twice — not at most once; the implementation does not track "already
freed". -/
theorem C1_counterexample :
    (({ realm := some { Pointer := 1, disposed := false }, ptr := 42,
        borrowed := false } : Value).realm.isSome = true) ∧
    (({ realm := some { Pointer := 1, disposed := false }, ptr := 42,
        borrowed := false } : Value).ptr ≠ 0) ∧
    (({ realm := some { Pointer := 1, disposed := false }, ptr := 42,
        borrowed := false } : Value).borrowed = false) ∧
    ¬ countReleases
        (Value.freeTraceN
          { realm := some { Pointer := 1, disposed := false }, ptr := 42,
            borrowed := false } 2) ≤ 1 := by
  decide

/-- Claim C1 (amended): for a Value with an owning Context, non-null
handle, and borrowed = false, every call to Free invokes the engine release
entry point once — `n` calls make `n` release invocations, because Free has
a value receiver and never clears the handle, so there is no
"already freed" tracking and repeated calls are not no-ops. -/
theorem C1_free_releases_each_call (r : Realm) (p n : Nat) (h : p ≠ 0) :
    countReleases
      (Value.freeTraceN { realm := some r, ptr := p, borrowed := false } n) = n := by
  have hfree :
      Value.Free { realm := some r, ptr := p, borrowed := false }
        = [.freeValuePointer r.Pointer p] := by
    simp [Value.Free, MemoryManager.FreeValuePointer, h]
  induction n with
  | zero => simp [Value.freeTraceN, countReleases]
  | succ k ih =>
      have hstep :
          Value.freeTraceN { realm := some r, ptr := p, borrowed := false } (k + 1)
            = [EngineCall.freeValuePointer r.Pointer p]
              ++ Value.freeTraceN { realm := some r, ptr := p, borrowed := false } k := by
        simp [Value.freeTraceN, List.replicate_succ, hfree]
      rw [hstep, countReleases_append, ih]
      simp [countReleases]
      omega

/-- Claim C1 (amended) witness: two Free calls on an owned value with
handle 42 make exactly two release invocations. -/
theorem C1_witness :
    (42 : Nat) ≠ 0 ∧
    countReleases
      (Value.freeTraceN
        { realm := some { Pointer := 1, disposed := false }, ptr := 42,
          borrowed := false } 2) = 2 :=
  ⟨by decide, C1_free_releases_each_call { Pointer := 1, disposed := false } 42 2 (by decide)⟩

/-- Claim C2 (counterexample): for buffer [65, 66] and in-bounds offset 0,
the suffix has no zero byte, yet ReadString returns the whole unterminated
suffix with ok = true — it does not fail. -/
theorem C2_counterexample :
    (0 : Nat) < ([65, 66] : List Nat).length ∧
    (∀ b ∈ ([65, 66] : List Nat).drop 0, b ≠ 0) ∧
    Memory.ReadString [65, 66] 0 = ([65, 66], true) := by
  decide

/-- Claim C2 (amended): for every in-bounds offset whose suffix of memory
contains no zero byte, ReadString SUCCEEDS (ok = true) and returns the
entire unterminated suffix as the result, rather than failing. -/
theorem C2_readString_no_terminator_returns_suffix (mem : List Nat) (off : Nat)
    (h1 : off ≤ mem.length) (h2 : ∀ b ∈ mem.drop off, b ≠ 0) :
    Memory.ReadString mem off = (mem.drop off, true) := by
  have hread : Memory.read mem off (mem.length - off)
      = some ((mem.drop off).take (mem.length - off)) := by
    simp [Memory.read, Nat.add_sub_cancel' h1]
  have htake : (mem.drop off).take (mem.length - off) = mem.drop off := by
    apply List.take_of_length_le
    simp [List.length_drop]
  simp only [Memory.ReadString, hread, htake, findIdx?_zero_eq_none _ h2]

/-- Claim C2 (amended) witness: concrete evaluation at buffer [65, 66],
offset 0. -/
theorem C2_witness :
    ((0 : Nat) ≤ ([65, 66] : List Nat).length ∧
      ∀ b ∈ ([65, 66] : List Nat).drop 0, b ≠ 0) ∧
    Memory.ReadString [65, 66] 0 = (([65, 66] : List Nat).drop 0, true) :=
  ⟨⟨by decide, by decide⟩,
   C2_readString_no_terminator_returns_suffix [65, 66] 0 (by decide) (by decide)⟩

/-- Claim C7: for every Context, Undefined() and Null() return Values
carrying the borrowed flag, and any number of Free calls on them emits no
engine call at all — in particular the value-release entry point is never
invoked for them. -/
theorem C7_undefined_null_free_noop (e : Engine) (r : Realm) (n : Nat) :
    (Realm.Undefined e r).1.borrowed = true ∧
    (Realm.Null e r).1.borrowed = true ∧
    Value.freeTraceN (Realm.Undefined e r).1 n = [] ∧
    Value.freeTraceN (Realm.Null e r).1 n = [] := by
  refine ⟨rfl, rfl, ?_, ?_⟩ <;>
    simp [Realm.Undefined, Realm.Null, Value.freeTraceN, Value.Free,
      flatten_replicate_nil]

/-- Claim C10: duplicating a Value with an owning Context always yields a
wrapper with borrowed = false (even when the original is borrowed), so
freeing a non-null duplicate invokes the engine release entry point exactly
once; duplicating the zero Value (no owning Context) yields the zero Value
and makes no engine call. -/
theorem C10_dup_owned_unborrowed (e : Engine) (v : Value) (r : Realm)
    (h : v.realm = some r) :
    (Value.Dup e v).1.borrowed = false ∧
    (Value.Dup e v).2 = [.dupValuePointer r.Pointer v.ptr] ∧
    ((Value.Dup e v).1.ptr ≠ 0 →
      countReleases (Value.Free (Value.Dup e v).1) = 1) ∧
    (∀ p b, Value.Dup e { realm := none, ptr := p, borrowed := b }
      = (Value.zero, [])) := by
  obtain ⟨vr, vp, vb⟩ := v
  cases h
  refine ⟨rfl, rfl, ?_, fun p b => rfl⟩
  intro hp
  simp only [Value.Dup, MemoryManager.DupValuePointer] at hp ⊢
  simp [Value.Free, MemoryManager.FreeValuePointer, hp, countReleases]

/-- Claim C10 witness: duplicating the borrowed undefined singleton
(handle 3) under the test engine yields an unborrowed duplicate whose Free
makes one release invocation. -/
theorem C10_witness :
    (({ realm := some { Pointer := 1, disposed := false }, ptr := 3,
        borrowed := true } : Value).realm
      = some { Pointer := 1, disposed := false }) ∧
    ((Value.Dup testEngine
        { realm := some { Pointer := 1, disposed := false }, ptr := 3,
          borrowed := true }).1.borrowed = false ∧
      (Value.Dup testEngine
        { realm := some { Pointer := 1, disposed := false }, ptr := 3,
          borrowed := true }).2 = [.dupValuePointer 1 3] ∧
      ((Value.Dup testEngine
          { realm := some { Pointer := 1, disposed := false }, ptr := 3,
            borrowed := true }).1.ptr ≠ 0 →
        countReleases
          (Value.Free
            (Value.Dup testEngine
              { realm := some { Pointer := 1, disposed := false }, ptr := 3,
                borrowed := true }).1) = 1) ∧
      (∀ p b, Value.Dup testEngine { realm := none, ptr := p, borrowed := b }
        = (Value.zero, []))) :=
  ⟨rfl, C10_dup_owned_unborrowed testEngine _ { Pointer := 1, disposed := false } rfl⟩

/-- Claim C3 (counterexample): after Runtime.Close (here: runtime handle 5,
no realms), the runtime is disposed with a nulled handle, yet
SetMemoryLimit, RunGC, IsMicrotaskPending and ExecuteMicrotasks each still
emit an engine call (on the nulled handle) instead of rejecting with a
disposal error before touching the engine. -/
theorem C3_counterexample :
    (RuntimeS.Close { Pointer := 5, disposed := false, realms := [] }
        { contexts := [], runtimes := [5] }).1
      = { Pointer := 0, disposed := true, realms := [] } ∧
    RuntimeS.SetMemoryLimit
        { Pointer := 0, disposed := true, realms := [] } 128
      = [.setMemoryLimit 0 128] ∧
    RuntimeS.RunGC { Pointer := 0, disposed := true, realms := [] }
      = [.runGC 0] ∧
    (RuntimeS.IsMicrotaskPending testEngine
        { Pointer := 0, disposed := true, realms := [] }).2
      = [.isJobPending 0] ∧
    (RuntimeS.ExecuteMicrotasks testEngine
        { Pointer := 0, disposed := true, realms := [] } (-1)).2
      = [.executePendingJob 0 (-1)] := by
  decide

/-- Claim C3 (amended): after disposal only CreateRealm rejects with a
disposal error before touching the engine; SetMemoryLimit, RunGC,
IsMicrotaskPending and ExecuteMicrotasks perform no disposed check and
forward to the engine unconditionally, using the (cleared) runtime
handle. -/
theorem C3_only_createRealm_checks_disposed (e : Engine) (rt : RuntimeS)
    (cm : CallbackManagerS) (bytes maxJobs : Int) (h : rt.disposed = true) :
    RuntimeS.CreateRealm e rt cm = (.error .runtimeDisposed, []) ∧
    RuntimeS.SetMemoryLimit rt bytes = [.setMemoryLimit rt.Pointer bytes] ∧
    RuntimeS.RunGC rt = [.runGC rt.Pointer] ∧
    (RuntimeS.IsMicrotaskPending e rt).2 = [.isJobPending rt.Pointer] ∧
    (RuntimeS.ExecuteMicrotasks e rt maxJobs).2
      = [.executePendingJob rt.Pointer maxJobs] := by
  refine ⟨?_, rfl, rfl, rfl, rfl⟩
  simp [RuntimeS.CreateRealm, h]

/-- Claim C3 (amended) witness: concrete disposed runtime with nulled
handle. -/
theorem C3_witness :
    ({ Pointer := 0, disposed := true, realms := [] } : RuntimeS).disposed = true ∧
    (RuntimeS.CreateRealm testEngine
        { Pointer := 0, disposed := true, realms := [] }
        { contexts := [], runtimes := [] }
      = (.error .runtimeDisposed, []) ∧
     RuntimeS.SetMemoryLimit { Pointer := 0, disposed := true, realms := [] } 128
      = [.setMemoryLimit 0 128] ∧
     RuntimeS.RunGC { Pointer := 0, disposed := true, realms := [] } = [.runGC 0] ∧
     (RuntimeS.IsMicrotaskPending testEngine
        { Pointer := 0, disposed := true, realms := [] }).2 = [.isJobPending 0] ∧
     (RuntimeS.ExecuteMicrotasks testEngine
        { Pointer := 0, disposed := true, realms := [] } (-1)).2
      = [.executePendingJob 0 (-1)]) :=
  ⟨rfl, C3_only_createRealm_checks_disposed testEngine
    { Pointer := 0, disposed := true, realms := [] }
    { contexts := [], runtimes := [] } 128 (-1) rfl⟩

/-- Claim C4 (counterexample): creating a realm registers handle 7 with the
router; Runtime.Close then disposes that realm (freeContext 7 appears in
the engine trace) but leaves handle 7 in the router's context mapping — a
disposed Context remains resolvable after implicit disposal through
Runtime.Close. -/
theorem C4_counterexample :
    RuntimeS.CreateRealm testEngine
        { Pointer := 3, disposed := false, realms := [] }
        { contexts := [], runtimes := [3] }
      = (.ok ({ Pointer := 7, disposed := false },
              { Pointer := 3, disposed := false, realms := [7] },
              { contexts := [7], runtimes := [3] }),
         [.newContext 3 7]) ∧
    RuntimeS.Close { Pointer := 3, disposed := false, realms := [7] }
        { contexts := [7], runtimes := [3] }
      = ({ Pointer := 0, disposed := true, realms := [] },
         { contexts := [7], runtimes := [] },
         [.freeContext 7, .freeRuntime 3]) ∧
    7 ∈ (RuntimeS.Close { Pointer := 3, disposed := false, realms := [7] }
        { contexts := [7], runtimes := [3] }).2.1.contexts := by
  refine ⟨rfl, rfl, ?_⟩
  decide

/-- Claim C4 (amended): a Context's handle is registered with the router
for its live lifetime and removed by explicit Realm.Close; but disposal
through Runtime.Close does NOT remove context handles from the router's
mapping — Runtime.Close leaves the context mapping unchanged (it only
unregisters the runtime handle), so implicitly disposed Contexts remain
resolvable. -/
theorem C4_unregister_only_on_explicit_close (r : Realm) (rt : RuntimeS)
    (cm : CallbackManagerS) (h : r.disposed = false) :
    r.Pointer ∉ ((Realm.CloseOp r rt cm).2.2.1).contexts ∧
    (∀ rt' cm', ((RuntimeS.Close rt' cm').2.1).contexts = cm'.contexts) := by
  constructor
  · simp [Realm.CloseOp, h, CallbackManagerS.UnregisterContext, List.mem_filter]
  · intro rt' cm'
    simp only [RuntimeS.Close]
    split
    · rfl
    · simp only [CallbackManagerS.UnregisterRuntime]
      split <;> rfl

/-- Claim C4 (amended) witness: concrete live realm with handle 7. -/
theorem C4_witness :
    ({ Pointer := 7, disposed := false } : Realm).disposed = false ∧
    ((7 : Nat) ∉ ((Realm.CloseOp { Pointer := 7, disposed := false }
        { Pointer := 3, disposed := false, realms := [7] }
        { contexts := [7], runtimes := [3] }).2.2.1).contexts ∧
     ∀ rt' cm', ((RuntimeS.Close rt' cm').2.1).contexts = cm'.contexts) :=
  ⟨rfl, C4_unregister_only_on_explicit_close { Pointer := 7, disposed := false }
    { Pointer := 3, disposed := false, realms := [7] }
    { contexts := [7], runtimes := [3] } rfl⟩

/-- Claim C8: after registering and then unregistering a context handle the
handle no longer resolves, and each inbound callback surface yields its
declared neutral result: null value handle for call_function, false for
interrupt, identity string for normalize_module, the error source type for
load_module, status 0 for module_init. -/
theorem C8_unregistered_handle_neutral (cm : CallbackManagerS) (h : Nat)
    (funcID thisArg argc argv rtp opq m : Nat) (baseName name moduleName : List Nat) :
    h ∉ ((cm.RegisterContext h).UnregisterContext h).contexts ∧
    ((cm.RegisterContext h).UnregisterContext h).handleCallFunction h funcID
        thisArg argc argv = 0 ∧
    ((cm.RegisterContext h).UnregisterContext h).handleInterrupt rtp opq = false ∧
    ((cm.RegisterContext h).UnregisterContext h).handleNormalizeModule h
        baseName name opq = name ∧
    ((cm.RegisterContext h).UnregisterContext h).handleLoadModule rtp h
        moduleName opq = (ModuleSourceError, 0, 0) ∧
    ((cm.RegisterContext h).UnregisterContext h).handleModuleInit h m = 0 := by
  refine ⟨?_, rfl, rfl, rfl, rfl, rfl⟩
  simp [CallbackManagerS.RegisterContext, CallbackManagerS.UnregisterContext,
    List.mem_filter]

/-- Claim C6: on a non-disposed realm, EvalCode with empty source takes the
empty-input shortcut and returns the borrowed undefined singleton; the only
engine call is GetUndefined — in particular the evaluation entry point is
never invoked and no engine memory is allocated. -/
theorem C6_empty_source_shortcut (e : Engine) (r : Realm) (filename : List Nat)
    (detect : Bool) (h : r.disposed = false) :
    Realm.EvalCodeWithOptions e r [] filename detect
      = (.ok { realm := some r, ptr := e.undefinedPtr, borrowed := true },
         [.getUndefined]) ∧
    ∀ ev ∈ (Realm.EvalCodeWithOptions e r [] filename detect).2,
      isEvalCall ev = false ∧ isMallocCall ev = false := by
  refine ⟨evalCode_empty_eq e r filename detect h, ?_⟩
  rw [evalCode_empty_eq e r filename detect h]
  intro ev hev
  simp at hev
  subst hev
  exact ⟨rfl, rfl⟩

/-- Claim C6 witness: concrete evaluation of the empty source on a live
realm under the test engine. -/
theorem C6_witness :
    ({ Pointer := 1, disposed := false } : Realm).disposed = false ∧
    (Realm.EvalCodeWithOptions testEngine { Pointer := 1, disposed := false }
        [] [] true
      = (.ok { realm := some { Pointer := 1, disposed := false },
               ptr := testEngine.undefinedPtr, borrowed := true },
         [.getUndefined]) ∧
     ∀ ev ∈ (Realm.EvalCodeWithOptions testEngine
         { Pointer := 1, disposed := false } [] [] true).2,
       isEvalCall ev = false ∧ isMallocCall ev = false) :=
  ⟨rfl, C6_empty_source_shortcut testEngine { Pointer := 1, disposed := false }
    [] true rfl⟩

/-- Claim C5: on a non-disposed realm, when evaluation reports a pending
exception, EvalCode frees the code string, frees the filename string, frees
the result handle (when non-null), reads and frees the exception's string
representation (when non-null), releases the exception value itself, and
surfaces an error carrying the exception's string form; moreover on every
exit path (success, exception, or early return) every successful string
allocation is matched by a free. -/
theorem C5_eval_exception_frees_all (e : Engine) (r : Realm)
    (code filename : List Nat) (detect : Bool)
    (hd : r.disposed = false) (hc : code ≠ [])
    (hca : evalCodePtr e r code ≠ 0) (hfa : evalFnamePtr e r filename ≠ 0)
    (herr : evalErrPtr e r code filename detect ≠ 0) :
    (Realm.EvalCodeWithOptions e r code filename detect).1
      = .error (.exception (evalExcMsg e r code filename detect)) ∧
    .freeMem r.Pointer (evalCodePtr e r code)
      ∈ (Realm.EvalCodeWithOptions e r code filename detect).2 ∧
    .freeMem r.Pointer (evalFnamePtr e r filename)
      ∈ (Realm.EvalCodeWithOptions e r code filename detect).2 ∧
    (evalResultPtr e r code filename detect ≠ 0 →
      .freeValuePointer r.Pointer (evalResultPtr e r code filename detect)
        ∈ (Realm.EvalCodeWithOptions e r code filename detect).2) ∧
    (evalExcStrPtr e r code filename detect ≠ 0 →
      .freeCString r.Pointer (evalExcStrPtr e r code filename detect)
        ∈ (Realm.EvalCodeWithOptions e r code filename detect).2) ∧
    .freeValuePointer r.Pointer (evalErrPtr e r code filename detect)
      ∈ (Realm.EvalCodeWithOptions e r code filename detect).2 ∧
    ∀ e' r' c' f' d', memBalanced (Realm.EvalCodeWithOptions e' r' c' f' d').2 := by
  rw [evalCode_exception_eq e r code filename detect hd hc hca hfa herr]
  refine ⟨rfl, ?_, ?_, ?_, ?_, ?_,
    fun e' r' c' f' d' => evalCode_memBalanced e' r' c' f' d'⟩
  · simp
  · simp
  · intro hres
    simp [hres]
  · intro hstr
    simp [hstr]
  · simp

/-- Claim C5 witness: evaluating the one-byte source "a" under the test
engine (whose GetLastError always reports handle 9) surfaces an evaluation
error carrying the exception's string bytes. -/
theorem C5_witness :
    evalErrPtr testEngine { Pointer := 1, disposed := false } [97] [] true ≠ 0 ∧
    (Realm.EvalCodeWithOptions testEngine { Pointer := 1, disposed := false }
        [97] [] true).1
      = .error (.exception [69, 114, 114]) :=
  ⟨by decide,
   by
     have h := C5_eval_exception_frees_all testEngine
       { Pointer := 1, disposed := false } [97] [] true rfl (by decide)
       (by decide) (by decide) (by decide)
     simpa [evalExcMsg, evalExcStrPtr, evalErrPtr, evalResultPtr, evalCodePtr,
       evalFnamePtr, testEngine] using h.1⟩

/-- A 32-bit little-endian store at the end of a known prefix rewrites the
next four bytes in place. -/
lemma writeU32_at (pre suf : List Nat) (off v : Nat) (hoff : pre.length = off)
    (hsuf : 4 ≤ suf.length) :
    (Memory.WriteUint32 (pre ++ suf) off v).1
      = pre ++ ([v % 256, v / 256 % 256, v / 65536 % 256, v / 16777216 % 256]
          ++ suf.drop 4) := by
  have hc : off + ([v % 256, v / 256 % 256, v / 65536 % 256,
      v / 16777216 % 256] : List Nat).length ≤ (pre ++ suf).length := by
    simp only [List.length_append, List.length_cons, List.length_nil]
    omega
  rw [Memory.WriteUint32, Memory.writeBytes, if_pos hc]
  dsimp only
  rw [List.take_left' hoff]
  have h4 : ([v % 256, v / 256 % 256, v / 65536 % 256,
      v / 16777216 % 256] : List Nat).length = 4 := rfl
  rw [h4, ← List.drop_drop, List.drop_left' hoff, List.append_assoc]

/-- A 32-bit little-endian load of four known bytes after a known prefix. -/
lemma readU32_at (pre mid post : List Nat) (off : Nat) (hoff : pre.length = off)
    (hmid : mid.length = 4) :
    Memory.ReadUint32 (pre ++ (mid ++ post)) off
      = (mid.getD 0 0 + 256 * mid.getD 1 0 + 65536 * mid.getD 2 0
           + 16777216 * mid.getD 3 0, true) := by
  have hread : Memory.read (pre ++ (mid ++ post)) off 4 = some mid := by
    have hc : off + 4 ≤ (pre ++ (mid ++ post)).length := by
      simp only [List.length_append]
      omega
    rw [Memory.read, if_pos hc, List.drop_left' hoff, List.take_left' hmid]
  simp [Memory.ReadUint32, hread]

/-- The memory produced by the load_module binding: the 12 bytes at the
output offset become the little-endian encodings of sourceType = 2
(ModuleSourceError), payloadOffset = 0 and payloadLength = 0, and all other
bytes are untouched. -/
lemma loadModule_mem_eq (cm : CallbackManagerS) (mem : List Nat)
    (rt jsCtx moduleNamePtr opq outPtr : Nat) (h : outPtr + 12 ≤ mem.length) :
    (cm.loadModuleBinding mem rt jsCtx moduleNamePtr opq outPtr).2
      = mem.take outPtr
          ++ ([2, 0, 0, 0] ++ ([0, 0, 0, 0] ++ ([0, 0, 0, 0]
          ++ mem.drop (outPtr + 12)))) := by
  have hpre : (mem.take outPtr).length = outPtr := by
    simp [List.length_take]
    omega
  have hsplit : mem = mem.take outPtr ++ mem.drop outPtr :=
    (List.take_append_drop outPtr mem).symm
  have hsuf : 4 ≤ (mem.drop outPtr).length := by
    simp [List.length_drop]
    omega
  have e1 : (Memory.WriteUint32 mem outPtr 2).1
      = mem.take outPtr ++ ([2, 0, 0, 0] ++ (mem.drop outPtr).drop 4) := by
    conv_lhs => rw [hsplit]
    have := writeU32_at (mem.take outPtr) (mem.drop outPtr) outPtr 2 hpre hsuf
    simpa using this
  have hpre2 : (mem.take outPtr ++ [2, 0, 0, 0]).length = outPtr + 4 := by
    simp [hpre]
  have hsuf2 : 4 ≤ ((mem.drop outPtr).drop 4).length := by
    simp [List.length_drop]
    omega
  have e2 : (Memory.WriteUint32 (mem.take outPtr
        ++ ([2, 0, 0, 0] ++ (mem.drop outPtr).drop 4)) (outPtr + 4) 0).1
      = (mem.take outPtr ++ [2, 0, 0, 0])
          ++ ([0, 0, 0, 0] ++ ((mem.drop outPtr).drop 4).drop 4) := by
    have := writeU32_at (mem.take outPtr ++ [2, 0, 0, 0])
      ((mem.drop outPtr).drop 4) (outPtr + 4) 0 hpre2 hsuf2
    simpa [List.append_assoc] using this
  have hpre3 : ((mem.take outPtr ++ [2, 0, 0, 0]) ++ [0, 0, 0, 0]).length
      = outPtr + 8 := by
    simp [hpre]
  have hsuf3 : 4 ≤ (((mem.drop outPtr).drop 4).drop 4).length := by
    simp [List.length_drop]
    omega
  have e3 : (Memory.WriteUint32 ((mem.take outPtr ++ [2, 0, 0, 0])
        ++ ([0, 0, 0, 0] ++ ((mem.drop outPtr).drop 4).drop 4)) (outPtr + 8) 0).1
      = ((mem.take outPtr ++ [2, 0, 0, 0]) ++ [0, 0, 0, 0])
          ++ ([0, 0, 0, 0] ++ ((((mem.drop outPtr).drop 4).drop 4).drop 4)) := by
    have := writeU32_at ((mem.take outPtr ++ [2, 0, 0, 0]) ++ [0, 0, 0, 0])
      (((mem.drop outPtr).drop 4).drop 4) (outPtr + 8) 0 hpre3 hsuf3
    simpa [List.append_assoc] using this
  have hdrop12 : (((mem.drop outPtr).drop 4).drop 4).drop 4
      = mem.drop (outPtr + 12) := by
    rw [List.drop_drop, List.drop_drop, List.drop_drop]
  simp only [CallbackManagerS.loadModuleBinding, CallbackManagerS.handleLoadModule]
  rw [e1, e2, e3, hdrop12]
  simp [List.append_assoc]

/-- Claim C9: the load_module binding writes its result to the caller-given
output offset as three consecutive 32-bit little-endian fields {sourceType,
payloadOffset, payloadLength}; with the default handler every module name
yields the error source type (2), zero payload fields, and the binding
returns the error source type, leaving all bytes outside the 12-byte struct
untouched. -/
theorem C9_loadModule_struct_layout (cm : CallbackManagerS) (mem : List Nat)
    (rt jsCtx moduleNamePtr opq outPtr : Nat) (h : outPtr + 12 ≤ mem.length) :
    (cm.loadModuleBinding mem rt jsCtx moduleNamePtr opq outPtr).1
      = ModuleSourceError ∧
    (cm.loadModuleBinding mem rt jsCtx moduleNamePtr opq outPtr).2
      = mem.take outPtr ++ [2, 0, 0, 0, 0, 0, 0, 0, 0, 0, 0, 0]
          ++ mem.drop (outPtr + 12) ∧
    Memory.ReadUint32
        (cm.loadModuleBinding mem rt jsCtx moduleNamePtr opq outPtr).2 outPtr
      = (ModuleSourceError, true) ∧
    Memory.ReadUint32
        (cm.loadModuleBinding mem rt jsCtx moduleNamePtr opq outPtr).2 (outPtr + 4)
      = (0, true) ∧
    Memory.ReadUint32
        (cm.loadModuleBinding mem rt jsCtx moduleNamePtr opq outPtr).2 (outPtr + 8)
      = (0, true) := by
  have hpre : (mem.take outPtr).length = outPtr := by
    simp [List.length_take]
    omega
  have hkey := loadModule_mem_eq cm mem rt jsCtx moduleNamePtr opq outPtr h
  refine ⟨rfl, ?_, ?_, ?_, ?_⟩
  · rw [hkey]
    simp
  · rw [hkey, readU32_at (mem.take outPtr) [2, 0, 0, 0] _ outPtr hpre rfl]
    rfl
  · rw [hkey]
    have hgrp : mem.take outPtr ++ ([2, 0, 0, 0] ++ ([0, 0, 0, 0]
          ++ ([0, 0, 0, 0] ++ mem.drop (outPtr + 12))))
        = (mem.take outPtr ++ [2, 0, 0, 0])
          ++ ([0, 0, 0, 0] ++ ([0, 0, 0, 0] ++ mem.drop (outPtr + 12))) := by
      simp [List.append_assoc]
    rw [hgrp, readU32_at (mem.take outPtr ++ [2, 0, 0, 0]) [0, 0, 0, 0] _
      (outPtr + 4) (by simp [hpre]) rfl]
    rfl
  · rw [hkey]
    have hgrp : mem.take outPtr ++ ([2, 0, 0, 0] ++ ([0, 0, 0, 0]
          ++ ([0, 0, 0, 0] ++ mem.drop (outPtr + 12))))
        = ((mem.take outPtr ++ [2, 0, 0, 0]) ++ [0, 0, 0, 0])
          ++ ([0, 0, 0, 0] ++ mem.drop (outPtr + 12)) := by
      simp [List.append_assoc]
    rw [hgrp, readU32_at ((mem.take outPtr ++ [2, 0, 0, 0]) ++ [0, 0, 0, 0])
      [0, 0, 0, 0] _ (outPtr + 8) (by simp [hpre]) rfl]
    rfl

/-- Claim C9 witness: a 16-byte memory of ones, output offset 2. -/
theorem C9_witness :
    (2 : Nat) + 12 ≤ ([1, 1, 1, 1, 1, 1, 1, 1, 1, 1, 1, 1, 1, 1, 1, 1] : List Nat).length ∧
    (CallbackManagerS.loadModuleBinding { contexts := [], runtimes := [] }
        [1, 1, 1, 1, 1, 1, 1, 1, 1, 1, 1, 1, 1, 1, 1, 1] 0 0 0 0 2).1
      = ModuleSourceError ∧
    (CallbackManagerS.loadModuleBinding { contexts := [], runtimes := [] }
        [1, 1, 1, 1, 1, 1, 1, 1, 1, 1, 1, 1, 1, 1, 1, 1] 0 0 0 0 2).2
      = [1, 1] ++ [2, 0, 0, 0, 0, 0, 0, 0, 0, 0, 0, 0] ++ [1, 1] :=
  ⟨by decide,
   (C9_loadModule_struct_layout { contexts := [], runtimes := [] }
      [1, 1, 1, 1, 1, 1, 1, 1, 1, 1, 1, 1, 1, 1, 1, 1] 0 0 0 0 2 (by decide)).1,
   by
     have h := (C9_loadModule_struct_layout { contexts := [], runtimes := [] }
       [1, 1, 1, 1, 1, 1, 1, 1, 1, 1, 1, 1, 1, 1, 1, 1] 0 0 0 0 2 (by decide)).2.1
     simpa using h⟩

end Hako
